import Mathlib

/-!
A shallow embedding of the concurrent article-analysis pipeline
(`main.py` and `server.py`): the per-URL task state machine
`process_article`, the batch orchestrator `process_articles`, the
charged-word loader `load_charged_words`, and the HTTP handler `index`.

External capabilities (the network, the HTML sanitizer, the tokenizer and
the word-list files) are modelled as explicit environment parameters; the
two deadline budgets are modelled by comparing the environment-given
duration of an awaited operation against the budget, an operation timing
out exactly when its duration exceeds the budget.  Exceptions are modelled
with `Except`: a stage returns `Except.error` for the exception classes the
code can raise, and an error an `except` clause does not catch propagates
out of the embedded function.  Each task additionally yields the trace of
network fetches it issued, so that claims of the form "no fetch is issued"
are statable.
-/

namespace Jaundice

/-- List-prefix test used by `str_in`: does the second list start with the
first? -/
def leadsWith : List Char → List Char → Bool
  | [], _ => true
  | _ :: _, [] => false
  | a :: as, b :: bs => a == b && leadsWith as bs

/-- Does `s` contain `pat` as a contiguous sublist? -/
def hasSub (pat : List Char) : List Char → Bool
  | [] => leadsWith pat []
  | c :: cs => leadsWith pat (c :: cs) || hasSub pat cs

/-- Python substring test `pat in s` on strings, used by the
`if "inosmi.ru" not in url` guard of `process_article`. -/
def str_in (pat s : String) : Bool :=
  hasSub pat.data s.data

/-- Python `s.split(",")`: comma-separated fields of a character list;
the empty string yields one empty field. -/
def splitComma : List Char → List (List Char)
  | [] => [[]]
  | c :: cs =>
      if c == ',' then [] :: splitComma cs
      else
        match splitComma cs with
        | [] => [[c]]
        | g :: gs => (c :: g) :: gs

/-- Python `s.split(",")` on strings, as used by `index` in `server.py`. -/
def py_split_comma (s : String) : List String :=
  (splitComma s.data).map fun l => ⟨l⟩

/-- The `ProcessingStatus` enumeration of `main.py`. -/
inductive ProcessingStatus where
  | OK
  | FETCH_ERROR
  | PARSING_ERROR
  | TIMEOUT
deriving DecidableEq, Repr

/-- The result dict a task appends to the shared `results` list:
`{"status": status, "url": url, "score": score, "words_count": words_count}`. -/
structure ArticleResult where
  status : ProcessingStatus
  url : String
  score : Option ℚ
  words_count : Option Nat
deriving DecidableEq, Repr

/-- The exception classes named by the `except` clauses of
`process_article`. -/
inductive PyError where
  | articleNotFound
  | clientError
  | timeoutError
deriving DecidableEq, Repr

/-- The status each `except` clause of the outer `try` assigns to the
exception class it catches. -/
def statusOf : PyError → ProcessingStatus
  | .articleNotFound => .PARSING_ERROR
  | .clientError => .FETCH_ERROR
  | .timeoutError => .TIMEOUT

/-- Externally observable side effects of a task, recorded as a trace:
`fetchIssued url` marks that `fetch(session, url)` was started. -/
inductive Effect where
  | fetchIssued (url : String)
deriving DecidableEq, Repr

/-- The transport outcome of `fetch(session, url)` when it completes
within its deadline: either the page text, or an `aiohttp.ClientError`
(connection failure, or `raise_for_status` on a non-success HTTP status). -/
inductive FetchResult where
  | success (html : String)
  | clientError
deriving DecidableEq, Repr

/-- The external world as one task observes it: how long the network fetch
takes and what it returns; the sanitizer `adapters.inosmi_ru.sanitize`
(code outside `src/`, consumed as an opaque text normalizer); and, per
sanitized text, how long `split_by_words` takes and which word stems it
yields (`text_tools`, code outside `src/`). -/
structure ArticleEnv where
  fetchDuration : ℚ
  fetchResult : FetchResult
  sanitize : String → String
  analysisDuration : String → ℚ
  analysisWords : String → List String

/-- `CONNECTION_TIMEOUT = 5` from `main.py`. -/
def CONNECTION_TIMEOUT : ℚ := 5

/-- `ANALYSIS_TIMEOUT = 3` from `main.py`. -/
def ANALYSIS_TIMEOUT : ℚ := 3

/-- Modelled from the spec: `calculate_jaundice_rate` of `text_tools`, a
module of this repository that is not under `src/`: the percentage of
word stems matching the charged-word collection among all word stems
(zero when there are no words, the convention of rational division by
zero). -/
def calculate_jaundice_rate (words charged_words : List String) : ℚ :=
  100 * ((words.countP fun w => charged_words.contains w : Nat) : ℚ) / (words.length : ℚ)

/-- `async with timeout(connection_timeout): html = await fetch(session, url)`:
the fetch is issued, times out when its duration exceeds the budget, and
otherwise yields the page text or raises `aiohttp.ClientError`. -/
def fetch_with_timeout (connection_timeout : ℚ) (url : String) (env : ArticleEnv) :
    Except PyError String × List Effect :=
  if connection_timeout < env.fetchDuration then
    (.error .timeoutError, [.fetchIssued url])
  else
    match env.fetchResult with
    | .success html => (.ok html, [.fetchIssued url])
    | .clientError => (.error .clientError, [.fetchIssued url])

/-- The body of the outer `try` of `process_article`: the
`if "inosmi.ru" not in url: raise ArticleNotFound` guard, then the
deadline-bounded fetch.  When the guard raises, no fetch is issued. -/
def try_block (connection_timeout : ℚ) (url : String) (env : ArticleEnv) :
    Except PyError String × List Effect :=
  if !str_in "inosmi.ru" url then
    (.error .articleNotFound, [])
  else
    fetch_with_timeout connection_timeout url env

/-- `async with timeout(analysis_timeout): words = await split_by_words(morph, text)`:
times out when the analysis duration exceeds the budget, otherwise yields
the word stems. -/
def analysis_with_timeout (analysis_timeout : ℚ) (text : String) (env : ArticleEnv) :
    Except PyError (List String) :=
  if analysis_timeout < env.analysisDuration text then .error .timeoutError
  else .ok (env.analysisWords text)

/-- `process_article` of `main.py`.  Returns the result dict the task
appends to `results`, paired with the trace of issued fetches.  The outer
`except` clauses map `ArticleNotFound`, `aiohttp.ClientError` and
`asyncio.TimeoutError` to statuses via `statusOf`; on fetch success the
html is sanitized and analyzed under the analysis deadline, whose
`except asyncio.TimeoutError` clause sets status `TIMEOUT`; an exception
the inner clause does not catch would propagate as `Except.error`. -/
def process_article (charged_words : List String)
    (connection_timeout analysis_timeout : ℚ) (url : String) (env : ArticleEnv) :
    Except PyError ArticleResult × List Effect :=
  match try_block connection_timeout url env with
  | (.error e, tr) =>
      (.ok { status := statusOf e, url := url, score := none, words_count := none }, tr)
  | (.ok html, tr) =>
      let text := env.sanitize html
      match analysis_with_timeout analysis_timeout text env with
      | .error .timeoutError =>
          (.ok { status := .TIMEOUT, url := url, score := none, words_count := none }, tr)
      | .error e => (.error e, tr)
      | .ok words =>
          (.ok { status := .OK, url := url,
                 score := some (calculate_jaundice_rate words charged_words),
                 words_count := some words.length }, tr)

/-- The word-list files as `load_charged_words` sees them:
`open(path).read().splitlines()` per path. -/
structure FileSystem where
  lines : String → List String

/-- `load_charged_words` of `main.py`: starts from an empty list, extends
it with the lines of the positive-words file, then with the lines of the
negative-words file. -/
def load_charged_words (fs : FileSystem) : List String :=
  let charged_words : List String := []
  let charged_words := charged_words ++ fs.lines "charged_dict/positive_words.txt"
  let charged_words := charged_words ++ fs.lines "charged_dict/negative_words.txt"
  charged_words

/-- The task-group loop of `process_articles`: one task per URL (each URL
paired with the environment its task observes), every task appending its
one result; an exception escaping any task aborts the whole group. -/
def run_tasks (charged_words : List String)
    (connection_timeout analysis_timeout : ℚ) :
    List (String × ArticleEnv) → Except PyError (List ArticleResult) × List Effect
  | [] => (.ok [], [])
  | t :: ts =>
      match process_article charged_words connection_timeout analysis_timeout t.1 t.2 with
      | (.error e, tr) => (.error e, tr)
      | (.ok r, tr) =>
          match run_tasks charged_words connection_timeout analysis_timeout ts with
          | (.error e, trs) => (.error e, tr ++ trs)
          | (.ok rs, trs) => (.ok (r :: rs), tr ++ trs)

/-- `process_articles` of `main.py`: loads the charged words once, then
runs one `process_article` task per URL and returns the collected
results. -/
def process_articles (fs : FileSystem) (connection_timeout analysis_timeout : ℚ)
    (tasks : List (String × ArticleEnv)) :
    Except PyError (List ArticleResult) × List Effect :=
  run_tasks (load_charged_words fs) connection_timeout analysis_timeout tasks

/-- `URLS_LIMIT = 10` from `server.py`. -/
def URLS_LIMIT : Nat := 10

/-- Failures at the serving boundary: the uncaught `KeyError` from
`request.query["urls"]`, or a task fault escaping `process_articles`. -/
inductive ServerError where
  | keyError
  | taskFault (e : PyError)
deriving DecidableEq, Repr

/-- An `aiohttp.web.Response`, reduced to the fields `index` sets. -/
structure Response where
  status : Nat
  text : String
  content_type : String
deriving DecidableEq, Repr

/-- The JSON error body of the 400 response of `index`, with
`URLS_LIMIT` interpolated. -/
def too_many_urls_body : String :=
  "\x7b\"error\": \"too many urls in request, should be " ++ toString URLS_LIMIT
    ++ " or less\"\x7d"

/-- `index` of `server.py`: reads the `urls` query parameter (an absent
key raises `KeyError`, uncaught), splits it on commas, answers 400 with a
JSON error body when more than `URLS_LIMIT` URLs were given — without
running any task — and otherwise awaits `process_articles` on the URLs
and answers with the serialized batch (`json.dumps`, modelled as the
abstract `serialize` capability) at the default status 200. -/
def index (serialize : List ArticleResult → String) (fs : FileSystem)
    (connection_timeout analysis_timeout : ℚ) (envOf : String → ArticleEnv)
    (query : String → Option String) :
    Except ServerError Response × List Effect :=
  match query "urls" with
  | none => (.error .keyError, [])
  | some v =>
      let urls := py_split_comma v
      if urls.length > URLS_LIMIT then
        (.ok { status := 400, text := too_many_urls_body,
               content_type := "application/json" }, [])
      else
        match process_articles fs connection_timeout analysis_timeout
            (urls.map fun u => (u, envOf u)) with
        | (.error e, tr) => (.error (.taskFault e), tr)
        | (.ok rs, tr) =>
            (.ok { status := 200, text := serialize rs,
                   content_type := "application/json" }, tr)

/-- A concrete environment: the fetch returns an empty page at once and
the analysis of any text yields no word stems. -/
def emptyPageEnv : ArticleEnv where
  fetchDuration := 0
  fetchResult := .success ""
  sanitize := fun s => s
  analysisDuration := fun _ => 0
  analysisWords := fun _ => []

/-- A concrete environment: the fetch returns a page at once and the
analysis of any text yields the single word stem "spin". -/
def oneWordEnv : ArticleEnv where
  fetchDuration := 0
  fetchResult := .success "spin"
  sanitize := fun s => s
  analysisDuration := fun _ => 0
  analysisWords := fun _ => ["spin"]

/-- The result `process_article` delivers for `oneWordEnv` with charged
words `["spin"]`. -/
def okOneWordResult : ArticleResult where
  status := .OK
  url := "https://inosmi.ru/a"
  score := some 100
  words_count := some 1

/-- A concrete environment: the fetch returns at once but the analysis
takes one second. -/
def slowAnalysisEnv : ArticleEnv where
  fetchDuration := 0
  fetchResult := .success ""
  sanitize := fun s => s
  analysisDuration := fun _ => 1
  analysisWords := fun _ => []

/-- A concrete environment: the fetch fails at once with
`aiohttp.ClientError`. -/
def clientErrorEnv : ArticleEnv where
  fetchDuration := 0
  fetchResult := .clientError
  sanitize := fun s => s
  analysisDuration := fun _ => 0
  analysisWords := fun _ => []

/-- A file system with empty word-list files. -/
def emptyFS : FileSystem where
  lines := fun _ => []

/-- A serializer discarding its input, standing in for `json.dumps` in
concrete instantiations. -/
def emptySerialize : List ArticleResult → String := fun _ => ""

/-- A query dict carrying eleven comma-separated URLs. -/
def elevenUrlsQuery : String → Option String := fun k =>
  if k == "urls" then some "a,a,a,a,a,a,a,a,a,a,a" else none

/-- A query dict carrying two comma-separated URLs. -/
def twoUrlsQuery : String → Option String := fun k =>
  if k == "urls" then some "a,b" else none

/-- A query dict with no `urls` key. -/
def noUrlsQuery : String → Option String := fun _ => none

/-- A constant per-URL environment assignment. -/
def constEnvOf : String → ArticleEnv := fun _ => emptyPageEnv

/-- Exhaustive case analysis of `process_article`: either the outer try
raised and the `except` clauses produced the `statusOf` result, or the
fetch succeeded and the analysis either timed out (status `TIMEOUT`) or
produced the word stems (status `OK` with score and word count). -/
theorem process_article_cases (charged : List String) (ct at_ : ℚ)
    (url : String) (env : ArticleEnv) :
    (∃ e tr, try_block ct url env = (.error e, tr) ∧
      process_article charged ct at_ url env =
        (.ok { status := statusOf e, url := url, score := none, words_count := none }, tr)) ∨
    (∃ html tr, try_block ct url env = (.ok html, tr) ∧
      ((analysis_with_timeout at_ (env.sanitize html) env = .error .timeoutError ∧
        process_article charged ct at_ url env =
          (.ok { status := .TIMEOUT, url := url, score := none, words_count := none }, tr)) ∨
      (∃ words, analysis_with_timeout at_ (env.sanitize html) env = .ok words ∧
        process_article charged ct at_ url env =
          (.ok { status := .OK, url := url,
                 score := some (calculate_jaundice_rate words charged),
                 words_count := some words.length }, tr)))) := by
  rcases h : try_block ct url env with ⟨res, tr⟩
  rcases res with e | html
  · exact Or.inl ⟨e, tr, rfl, by unfold process_article; rw [h]⟩
  · refine Or.inr ⟨html, tr, rfl, ?_⟩
    by_cases hd : at_ < env.analysisDuration (env.sanitize html)
    · refine Or.inl ⟨by unfold analysis_with_timeout; rw [if_pos hd], ?_⟩
      unfold process_article analysis_with_timeout
      rw [h]
      dsimp only
      rw [if_pos hd]
    · refine Or.inr ⟨env.analysisWords (env.sanitize html),
        by unfold analysis_with_timeout; rw [if_neg hd], ?_⟩
      unfold process_article analysis_with_timeout
      rw [h]
      dsimp only
      rw [if_neg hd]

/-- The result of a task is always delivered (`Except.ok`) and echoes the
task's URL. -/
theorem process_article_fst_ok (charged : List String) (ct at_ : ℚ)
    (url : String) (env : ArticleEnv) :
    ∃ r : ArticleResult, (process_article charged ct at_ url env).1 = .ok r ∧ r.url = url := by
  rcases process_article_cases charged ct at_ url env with
    ⟨e, tr, _, hp⟩ | ⟨html, tr, _, ⟨_, hp⟩ | ⟨words, _, hp⟩⟩ <;>
    exact ⟨_, by rw [hp], rfl⟩

/-- The task-group loop delivers one result per task, in task order, each
echoing its task's URL. -/
theorem run_tasks_ok (charged : List String) (ct at_ : ℚ)
    (tasks : List (String × ArticleEnv)) :
    ∃ rs : List ArticleResult,
      (run_tasks charged ct at_ tasks).1 = .ok rs ∧
      rs.map ArticleResult.url = tasks.map Prod.fst := by
  induction tasks with
  | nil => exact ⟨[], rfl, rfl⟩
  | cons t ts ih =>
      obtain ⟨r, hr, hu⟩ := process_article_fst_ok charged ct at_ t.1 t.2
      obtain ⟨rs, hrs, hmap⟩ := ih
      rcases hpa : process_article charged ct at_ t.1 t.2 with ⟨res, tr⟩
      rw [hpa] at hr
      rcases hrt : run_tasks charged ct at_ ts with ⟨res2, trs⟩
      rw [hrt] at hrs
      simp only at hr hrs
      subst hr hrs
      refine ⟨r :: rs, ?_, ?_⟩
      · unfold run_tasks
        rw [hpa, hrt]
      · simp [hu, hmap]

/-- C1: for every input task list (duplicate URLs permitted), with every
per-task fault drawn from the enumerated classes, `process_articles`
delivers a results collection of the same length as the input, each task
having appended exactly one result carrying its own URL. -/
theorem process_articles_one_result_per_url (fs : FileSystem) (ct at_ : ℚ)
    (tasks : List (String × ArticleEnv)) :
    ∃ rs : List ArticleResult,
      (process_articles fs ct at_ tasks).1 = .ok rs ∧
      rs.length = tasks.length ∧
      rs.map ArticleResult.url = tasks.map Prod.fst := by
  obtain ⟨rs, h1, h2⟩ := run_tasks_ok (load_charged_words fs) ct at_ tasks
  exact ⟨rs, h1, by simpa using congrArg List.length h2, h2⟩

/-- C2: every error of the four enumerated classes arising in the guard,
fetch or analysis stages is caught inside `process_article` and mapped to
a `ProcessingStatus` (`statusOf` for the outer clauses, `TIMEOUT` for the
analysis deadline); the task always delivers a result instead of
propagating such an error. -/
theorem process_article_maps_enumerated_errors (charged : List String) (ct at_ : ℚ)
    (url : String) (env : ArticleEnv) :
    ∃ r : ArticleResult,
      (process_article charged ct at_ url env).1 = .ok r ∧
      (∀ e : PyError, (try_block ct url env).1 = .error e → r.status = statusOf e) ∧
      (∀ html : String, (try_block ct url env).1 = .ok html →
        analysis_with_timeout at_ (env.sanitize html) env = .error .timeoutError →
        r.status = .TIMEOUT) := by
  rcases process_article_cases charged ct at_ url env with
    ⟨e, tr, ht, hp⟩ | ⟨html, tr, ht, ⟨ha, hp⟩ | ⟨words, ha, hp⟩⟩
  · refine ⟨_, by rw [hp], ?_, ?_⟩
    · intro e2 he2
      rw [ht] at he2
      simp only at he2
      simp only [Except.error.injEq] at he2
      subst he2
      rfl
    · intro html2 hh
      rw [ht] at hh
      simp at hh
  · refine ⟨_, by rw [hp], ?_, ?_⟩
    · intro e2 he2
      rw [ht] at he2
      simp at he2
    · intro html2 hh hto
      rfl
  · refine ⟨_, by rw [hp], ?_, ?_⟩
    · intro e2 he2
      rw [ht] at he2
      simp at he2
    · intro html2 hh hto
      rw [ht] at hh
      simp only [Except.ok.injEq] at hh
      subst hh
      rw [ha] at hto
      simp at hto

/-- C3: in every result a completed task delivers, the score and the word
count are both present or both absent, and present exactly when the
status is `OK`. -/
theorem score_words_present_iff_ok (charged : List String) (ct at_ : ℚ)
    (url : String) (env : ArticleEnv) :
    ∃ r : ArticleResult,
      (process_article charged ct at_ url env).1 = .ok r ∧
      (r.score.isSome ↔ r.words_count.isSome) ∧
      (r.score.isSome ↔ r.status = .OK) ∧
      (r.words_count.isSome ↔ r.status = .OK) := by
  rcases process_article_cases charged ct at_ url env with
    ⟨e, tr, ht, hp⟩ | ⟨html, tr, ht, ⟨ha, hp⟩ | ⟨words, ha, hp⟩⟩
  · exact ⟨_, by rw [hp], by cases e <;> simp [statusOf]⟩
  · exact ⟨_, by rw [hp], by simp⟩
  · exact ⟨_, by rw [hp], by simp⟩

/-- C4 counterexample: an article whose analysis yields no word stems
completes with status `OK` and word count zero, so the claimed strict
positivity of the word count fails. -/
theorem ok_result_word_count_zero :
    (process_article [] CONNECTION_TIMEOUT ANALYSIS_TIMEOUT
        "https://inosmi.ru/a" emptyPageEnv).1 =
      .ok { status := .OK, url := "https://inosmi.ru/a", score := some 0,
            words_count := some 0 } ∧
    ¬ (∀ r : ArticleResult,
        (process_article [] CONNECTION_TIMEOUT ANALYSIS_TIMEOUT
            "https://inosmi.ru/a" emptyPageEnv).1 = .ok r →
        r.status = .OK → 0 < r.words_count.getD 0) := by
  have hs : str_in "inosmi.ru" "https://inosmi.ru/a" = true := by decide
  have heval : (process_article [] CONNECTION_TIMEOUT ANALYSIS_TIMEOUT
      "https://inosmi.ru/a" emptyPageEnv).1 =
      .ok { status := .OK, url := "https://inosmi.ru/a", score := some 0,
            words_count := some 0 } := by
    unfold process_article try_block fetch_with_timeout analysis_with_timeout
    rw [hs]
    norm_num [emptyPageEnv, CONNECTION_TIMEOUT, ANALYSIS_TIMEOUT, calculate_jaundice_rate]
  refine ⟨heval, fun h => ?_⟩
  simpa using h _ heval rfl

/-- C4 amended: in every result with status `OK`, the word count is
present (the number of word stems, possibly zero) and the score is
present with a value between 0 and 100 inclusive. -/
theorem ok_result_score_bounds (charged : List String) (ct at_ : ℚ)
    (url : String) (env : ArticleEnv) (r : ArticleResult)
    (hr : (process_article charged ct at_ url env).1 = .ok r)
    (hok : r.status = .OK) :
    ∃ (q : ℚ) (n : Nat), r.score = some q ∧ r.words_count = some n ∧
      0 ≤ q ∧ q ≤ 100 := by
  rcases process_article_cases charged ct at_ url env with
    ⟨e, tr, ht, hp⟩ | ⟨html, tr, ht, ⟨ha, hp⟩ | ⟨words, ha, hp⟩⟩
  · rw [hp] at hr
    simp only [Except.ok.injEq] at hr
    subst hr
    cases e <;> simp [statusOf] at hok
  · rw [hp] at hr
    simp only [Except.ok.injEq] at hr
    subst hr
    simp at hok
  · rw [hp] at hr
    simp only [Except.ok.injEq] at hr
    subst hr
    refine ⟨_, _, rfl, rfl, ?_, ?_⟩
    · unfold calculate_jaundice_rate
      positivity
    · unfold calculate_jaundice_rate
      rcases Nat.eq_zero_or_pos words.length with h0 | hpos
      · rw [List.length_eq_zero] at h0
        subst h0
        norm_num
      · have hlen : (0:ℚ) < words.length := by exact_mod_cast hpos
        rw [div_le_iff₀ hlen]
        have hc : (words.countP fun w => charged.contains w) ≤ words.length :=
          List.countP_le_length _
        have hcq : ((words.countP fun w => charged.contains w : Nat) : ℚ) ≤
            (words.length : ℚ) := by exact_mod_cast hc
        nlinarith

/-- Witness for the amended C4, at a one-word article all of whose stems
are charged. -/
theorem ok_result_score_bounds_witness :
    ∃ (q : ℚ) (n : Nat), okOneWordResult.score = some q ∧
      okOneWordResult.words_count = some n ∧ 0 ≤ q ∧ q ≤ 100 := by
  have hs : str_in "inosmi.ru" "https://inosmi.ru/a" = true := by decide
  refine ok_result_score_bounds ["spin"] CONNECTION_TIMEOUT ANALYSIS_TIMEOUT
    "https://inosmi.ru/a" oneWordEnv okOneWordResult ?_ rfl
  unfold process_article try_block fetch_with_timeout analysis_with_timeout
  rw [hs]
  norm_num [oneWordEnv, okOneWordResult, CONNECTION_TIMEOUT, ANALYSIS_TIMEOUT,
    calculate_jaundice_rate]

/-- C5: for a URL whose processing reaches the analysis stage (recognized
source, fetch delivered within the connection deadline), an analysis
budget below the analysis duration yields status `TIMEOUT` with score and
word count absent, for every connection timeout admitting the fetch. -/
theorem analysis_deadline_enforced (charged : List String) (ct at_ : ℚ)
    (url html : String) (env : ArticleEnv)
    (hurl : str_in "inosmi.ru" url = true)
    (hfd : env.fetchDuration ≤ ct)
    (hfr : env.fetchResult = .success html)
    (hat : at_ < env.analysisDuration (env.sanitize html)) :
    (process_article charged ct at_ url env).1 =
      .ok { status := .TIMEOUT, url := url, score := none, words_count := none } := by
  have ht : try_block ct url env = (.ok html, [.fetchIssued url]) := by
    unfold try_block fetch_with_timeout
    rw [hurl, if_neg (not_lt.mpr hfd), hfr]
    simp
  unfold process_article analysis_with_timeout
  rw [ht]
  dsimp only
  rw [if_pos hat]

/-- Witness for C5: an analysis budget of zero against a one-second
analysis, under the default connection timeout. -/
theorem analysis_deadline_enforced_witness :
    (process_article [] CONNECTION_TIMEOUT 0 "https://inosmi.ru/a" slowAnalysisEnv).1 =
      .ok { status := .TIMEOUT, url := "https://inosmi.ru/a", score := none,
            words_count := none } :=
  analysis_deadline_enforced [] CONNECTION_TIMEOUT 0 "https://inosmi.ru/a" ""
    slowAnalysisEnv (by decide)
    (by norm_num [slowAnalysisEnv, CONNECTION_TIMEOUT]) rfl
    (by norm_num [slowAnalysisEnv])

/-- C6: for every URL not containing the source marker, the task delivers
status `PARSING_ERROR` with score and word count absent, and its trace
shows no fetch was issued. -/
theorem unrecognized_url_parsing_error (charged : List String) (ct at_ : ℚ)
    (url : String) (env : ArticleEnv)
    (h : str_in "inosmi.ru" url = false) :
    process_article charged ct at_ url env =
      (.ok { status := .PARSING_ERROR, url := url, score := none,
             words_count := none }, []) := by
  unfold process_article try_block
  rw [h]
  rfl

/-- Witness for C6 at a URL from an unrecognized domain. -/
theorem unrecognized_url_parsing_error_witness :
    process_article [] CONNECTION_TIMEOUT ANALYSIS_TIMEOUT
        "https://lenta.ru/x" emptyPageEnv =
      (.ok { status := .PARSING_ERROR, url := "https://lenta.ru/x", score := none,
             words_count := none }, []) :=
  unrecognized_url_parsing_error [] CONNECTION_TIMEOUT ANALYSIS_TIMEOUT
    "https://lenta.ru/x" emptyPageEnv (by decide)

/-- C7: a transport-level fetch failure (connection error or
`raise_for_status` on a non-success HTTP status, both
`aiohttp.ClientError`) within the connection deadline yields status
`FETCH_ERROR` with score and word count absent. -/
theorem transport_failure_fetch_error (charged : List String) (ct at_ : ℚ)
    (url : String) (env : ArticleEnv)
    (hurl : str_in "inosmi.ru" url = true)
    (hfd : env.fetchDuration ≤ ct)
    (hfr : env.fetchResult = .clientError) :
    (process_article charged ct at_ url env).1 =
      .ok { status := .FETCH_ERROR, url := url, score := none,
            words_count := none } := by
  have ht : try_block ct url env = (.error .clientError, [.fetchIssued url]) := by
    unfold try_block fetch_with_timeout
    rw [hurl, if_neg (not_lt.mpr hfd), hfr]
    simp
  unfold process_article
  rw [ht]
  rfl

/-- Witness for C7 at a URL whose fetch fails with a client error. -/
theorem transport_failure_fetch_error_witness :
    (process_article [] CONNECTION_TIMEOUT ANALYSIS_TIMEOUT
        "https://inosmi.ru/not/exist.html" clientErrorEnv).1 =
      .ok { status := .FETCH_ERROR, url := "https://inosmi.ru/not/exist.html",
            score := none, words_count := none } :=
  transport_failure_fetch_error [] CONNECTION_TIMEOUT ANALYSIS_TIMEOUT
    "https://inosmi.ru/not/exist.html" clientErrorEnv (by decide)
    (by norm_num [clientErrorEnv, CONNECTION_TIMEOUT]) rfl

/-- C8: with a `urls` query parameter present, a request carrying more
than `URLS_LIMIT` comma-separated URLs is answered 400 with the JSON
error body while no task runs (empty trace); otherwise `index` invokes
`process_articles` on the split URLs and answers 200 with the batch
serialized. -/
theorem index_url_limit (serialize : List ArticleResult → String) (fs : FileSystem)
    (ct at_ : ℚ) (envOf : String → ArticleEnv)
    (query : String → Option String) (v : String)
    (hq : query "urls" = some v) :
    ((py_split_comma v).length > URLS_LIMIT →
      index serialize fs ct at_ envOf query =
        (.ok { status := 400, text := too_many_urls_body,
               content_type := "application/json" }, [])) ∧
    ((py_split_comma v).length ≤ URLS_LIMIT →
      ∃ rs tr, process_articles fs ct at_
          ((py_split_comma v).map fun u => (u, envOf u)) = (.ok rs, tr) ∧
        index serialize fs ct at_ envOf query =
          (.ok { status := 200, text := serialize rs,
                 content_type := "application/json" }, tr)) := by
  constructor
  · intro hgt
    unfold index
    rw [hq]
    dsimp only
    rw [if_pos hgt]
  · intro hle
    obtain ⟨rs, h1, _⟩ := run_tasks_ok (load_charged_words fs) ct at_
      ((py_split_comma v).map fun u => (u, envOf u))
    rcases hpa : process_articles fs ct at_
      ((py_split_comma v).map fun u => (u, envOf u)) with ⟨res, tr⟩
    have hres : res = .ok rs := by
      unfold process_articles at hpa
      rw [hpa] at h1
      exact h1
    subst hres
    refine ⟨rs, tr, rfl, ?_⟩
    unfold index
    rw [hq]
    dsimp only
    rw [if_neg (not_lt.mpr hle), hpa]

/-- Witness for C8 at a query carrying eleven URLs. -/
theorem index_url_limit_witness :
    ((py_split_comma "a,a,a,a,a,a,a,a,a,a,a").length > URLS_LIMIT →
      index emptySerialize emptyFS CONNECTION_TIMEOUT ANALYSIS_TIMEOUT
          constEnvOf elevenUrlsQuery =
        (.ok { status := 400, text := too_many_urls_body,
               content_type := "application/json" }, [])) ∧
    ((py_split_comma "a,a,a,a,a,a,a,a,a,a,a").length ≤ URLS_LIMIT →
      ∃ rs tr, process_articles emptyFS CONNECTION_TIMEOUT ANALYSIS_TIMEOUT
          ((py_split_comma "a,a,a,a,a,a,a,a,a,a,a").map fun u => (u, constEnvOf u)) =
            (.ok rs, tr) ∧
        index emptySerialize emptyFS CONNECTION_TIMEOUT ANALYSIS_TIMEOUT
            constEnvOf elevenUrlsQuery =
          (.ok { status := 200, text := emptySerialize rs,
                 content_type := "application/json" }, tr)) :=
  index_url_limit emptySerialize emptyFS CONNECTION_TIMEOUT ANALYSIS_TIMEOUT
    constEnvOf elevenUrlsQuery "a,a,a,a,a,a,a,a,a,a,a" (by decide)

/-- C9: the loader returns exactly the lines of the positive-words file
followed by the lines of the negative-words file; a word is in the loaded
collection iff it is a line of one of the two files. -/
theorem load_charged_words_merges (fs : FileSystem) :
    load_charged_words fs =
      fs.lines "charged_dict/positive_words.txt" ++
        fs.lines "charged_dict/negative_words.txt" ∧
    ∀ w : String, w ∈ load_charged_words fs ↔
      (w ∈ fs.lines "charged_dict/positive_words.txt" ∨
       w ∈ fs.lines "charged_dict/negative_words.txt") := by
  refine ⟨by unfold load_charged_words; simp, fun w => ?_⟩
  unfold load_charged_words
  simp

/-- C10: a request whose query string has no `urls` parameter makes
`index` raise the uncaught `KeyError` before the URL-count check or any
processing: the handler yields no response (in particular not the 400
JSON error body) and runs no task. -/
theorem missing_urls_param_key_error (serialize : List ArticleResult → String)
    (fs : FileSystem) (ct at_ : ℚ) (envOf : String → ArticleEnv)
    (query : String → Option String)
    (h : query "urls" = none) :
    index serialize fs ct at_ envOf query = (.error .keyError, []) := by
  unfold index
  rw [h]

/-- Witness for C10 at a query dict without a `urls` key. -/
theorem missing_urls_param_key_error_witness :
    index emptySerialize emptyFS CONNECTION_TIMEOUT ANALYSIS_TIMEOUT
        constEnvOf noUrlsQuery =
      (.error .keyError, []) :=
  missing_urls_param_key_error emptySerialize emptyFS CONNECTION_TIMEOUT
    ANALYSIS_TIMEOUT constEnvOf noUrlsQuery rfl

end Jaundice
